import Mathlib

/-!
Shallow embedding of the MoltPit agent SDK (packages/agent-sdk-python):
the JSON wire data model, the base agent classes of moltpit_agent/agent.py,
the HTTP request dispatch of moltpit_agent/server.py, and the two example
bots (examples/simple_chess_bot.py, examples/stockfish_bot.py).
Python dictionaries, lists, strings, integers, booleans and None are
modelled by the Json type; Python exceptions by Except String (the string
is str(e)); random.choice by an injectable selection function, as the
spec's design notes prescribe for testability.
-/

/-- JSON values exchanged on the wire; also models the Python dict/list
values the handlers and agents manipulate. -/
inductive Json where
  | null : Json
  | bool : Bool → Json
  | num : Int → Json
  | str : String → Json
  | arr : List Json → Json
  | obj : List (String × Json) → Json

mutual

/-- Equality test on Json values, models Python == on these values. -/
def Json.beq : Json → Json → Bool
  | .null, .null => true
  | .bool a, .bool b => a == b
  | .num a, .num b => a == b
  | .str a, .str b => a == b
  | .arr xs, .arr ys => Json.beqList xs ys
  | .obj xs, .obj ys => Json.beqObjList xs ys
  | _, _ => false

/-- Elementwise equality of Json lists. -/
def Json.beqList : List Json → List Json → Bool
  | [], [] => true
  | a :: as, b :: bs => Json.beq a b && Json.beqList as bs
  | _, _ => false

/-- Elementwise equality of Json object entry lists. -/
def Json.beqObjList : List (String × Json) → List (String × Json) → Bool
  | [], [] => true
  | (k1, v1) :: as, (k2, v2) :: bs => k1 == k2 && Json.beq v1 v2 && Json.beqObjList as bs
  | _, _ => false

end

/-- Python truthiness of a value: None, False, 0, empty string, empty
list and empty dict are falsy. -/
def truthy : Json → Bool
  | .null => false
  | .bool b => b
  | .num n => n != 0
  | .str s => s != ""
  | .arr xs => !xs.isEmpty
  | .obj kvs => !kvs.isEmpty

/-- Key lookup in a Json object, none on a missing key or a non-object. -/
def objLookup (j : Json) (k : String) : Option Json :=
  match j with
  | .obj kvs => kvs.lookup k
  | _ => none

/-- Python dict.get(key, default): returns the default on a missing key;
raises AttributeError when the receiver is not a dict (message
approximates str(e)). -/
def pyGetD (j : Json) (k : String) (d : Json) : Except String Json :=
  match j with
  | .obj kvs => .ok ((kvs.lookup k).getD d)
  | _ => .error "AttributeError: object has no attribute get"

/-- Python subscription value[key]: KeyError on a missing key, TypeError
on a non-dict receiver (messages approximate str(e)). -/
def pySubscript (j : Json) (k : String) : Except String Json :=
  match j with
  | .obj kvs =>
    match kvs.lookup k with
    | some v => .ok v
    | none => .error ("KeyError: " ++ k)
  | _ => .error "TypeError: object is not subscriptable"

/-- Python indexing value[i] on a list: IndexError out of range,
TypeError on a non-list receiver. -/
def pyIndex (j : Json) (i : Nat) : Except String Json :=
  match j with
  | .arr xs =>
    match xs.get? i with
    | some v => .ok v
    | none => .error "IndexError: list index out of range"
  | _ => .error "TypeError: object is not subscriptable"

/-- Requires the value to be a Python list in order to iterate it. -/
def asList (j : Json) : Except String (List Json) :=
  match j with
  | .arr xs => .ok xs
  | _ => .error "TypeError: object is not iterable"

/-- MoveResponse from moltpit_agent/agent.py: one required action and an
optional trash-talk commentary string. -/
structure MoveResponse where
  action : Json
  trash_talk : Option String := none

/-- MoveResponse.to_dict from moltpit_agent/agent.py: serializes the
action under "action" and adds "trashTalk" only when trash_talk is
truthy (neither None nor the empty string). -/
def MoveResponse.to_dict (r : MoveResponse) : Json :=
  match r.trash_talk with
  | some s =>
    if s != "" then Json.obj [("action", r.action), ("trashTalk", Json.str s)]
    else Json.obj [("action", r.action)]
  | none => Json.obj [("action", r.action)]

/-- ChessAgent.make_move from moltpit_agent/agent.py, the default chess
implementation: raises ValueError("No valid moves available") when
game_state.get("validMoves") is falsy, else answers with the first valid
move's from/to and its optional promotion (None when absent). -/
def ChessAgent.makeMove (gameState : Json) : Except String Json :=
  match pyGetD gameState "validMoves" Json.null with
  | .error e => .error e
  | .ok vm =>
    if truthy vm then
      match pySubscript gameState "validMoves" with
      | .error e => .error e
      | .ok vms =>
        match pyIndex vms 0 with
        | .error e => .error e
        | .ok move =>
          match pySubscript move "from" with
          | .error e => .error e
          | .ok f =>
            match pySubscript move "to" with
            | .error e => .error e
            | .ok t =>
              match pyGetD move "promotion" Json.null with
              | .error e => .error e
              | .ok promo =>
                .ok (Json.obj [("action", Json.obj
                  [("from", f), ("to", t), ("promotion", promo)])])
    else .error "No valid moves available"

/-- State private to SimpleChessBot (examples/simple_chess_bot.py): its
per-game move counter. -/
structure SimpleState where
  moveCount : Nat

/-- The trash_talk_lines list of SimpleChessBot; the two None entries
mean the bot sometimes stays quiet. -/
def trashTalkLines : List Json :=
  [Json.str "🦞 Claws out!",
   Json.str "Is that really your best move?",
   Json.str "My circuits are barely warming up.",
   Json.str "Interesting choice... for a hatchling.",
   Json.str "You\x27re making this too easy.",
   Json.str "Into the Pit with you! 🦞",
   Json.null,
   Json.null]

/-- The central squares SimpleChessBot prefers in the opening. -/
def centerSquares : List Json :=
  [Json.str "e4", Json.str "d4", Json.str "e5",
   Json.str "d5", Json.str "c4", Json.str "f4"]

/-- Python expression (c in m.get("san", "")): AttributeError on a
non-dict move, TypeError when the san value is not a string. -/
def pyInSan (c : Char) (m : Json) : Except String Bool :=
  match pyGetD m "san" (Json.str "") with
  | .error e => .error e
  | .ok (.str s) => .ok (s.toList.contains c)
  | .ok _ => .error "TypeError: argument of type is not iterable"

/-- Capture test of SimpleChessBot._select_move: an x in the SAN text. -/
def isCapture (m : Json) : Except String Bool := pyInSan 'x' m

/-- Test of SimpleChessBot._select_move for checks: a plus or hash sign
in the SAN text, with Python or short-circuiting. -/
def isCheck (m : Json) : Except String Bool :=
  match pyInSan '+' m with
  | .error e => .error e
  | .ok true => .ok true
  | .ok false => pyInSan '#' m

/-- Center test of SimpleChessBot._select_move: m["to"] belongs to the
fixed central-square list. -/
def isCenter (m : Json) : Except String Bool :=
  match pySubscript m "to" with
  | .error e => .error e
  | .ok t => .ok (centerSquares.any (fun x => Json.beq x t))

/-- A Python list comprehension filter, evaluated left to right with the
first raised exception propagating. -/
def filterE (f : Json → Except String Bool) : List Json → Except String (List Json)
  | [] => .ok []
  | m :: ms =>
    match f m with
    | .error e => .error e
    | .ok b =>
      match filterE f ms with
      | .error e => .error e
      | .ok rest => .ok (if b then m :: rest else rest)

/-- SimpleChessBot._select_move from examples/simple_chess_bot.py:
captures first, then checks, then central squares while move_count is
below 10, else any move; random.choice is the injected choice. -/
def SimpleChessBot.selectMove (choice : List Json → Json) (moveCount : Nat)
    (moves : List Json) (gameState : Json) : Except String Json :=
  match filterE isCapture moves with
  | .error e => .error e
  | .ok captures =>
    if !captures.isEmpty then .ok (choice captures)
    else
      match filterE isCheck moves with
      | .error e => .error e
      | .ok checks =>
        if !checks.isEmpty then .ok (choice checks)
        else
          if moveCount < 10 then
            match filterE isCenter moves with
            | .error e => .error e
            | .ok centerMoves =>
              if !centerMoves.isEmpty then .ok (choice centerMoves)
              else .ok (choice moves)
          else .ok (choice moves)

/-- SimpleChessBot.make_move from examples/simple_chess_bot.py: bumps the
move counter, raises ValueError("No valid moves!") on a falsy
validMoves, selects a move through _select_move, and always adds a
"trashTalk" entry holding the randomly chosen line, which can be one of
the two None lines. -/
def SimpleChessBot.makeMove (choice : List Json → Json) (s : SimpleState)
    (gameState : Json) : SimpleState × Except String Json :=
  let s2 : SimpleState := ⟨s.moveCount + 1⟩
  (s2,
    match pyGetD gameState "validMoves" (Json.arr []) with
    | .error e => .error e
    | .ok vm =>
      if truthy vm then
        match asList vm with
        | .error e => .error e
        | .ok validMoves =>
          match SimpleChessBot.selectMove choice s2.moveCount validMoves gameState with
          | .error e => .error e
          | .ok bestMove =>
            let trashTalk := choice trashTalkLines
            match pySubscript bestMove "from" with
            | .error e => .error e
            | .ok f =>
              match pySubscript bestMove "to" with
              | .error e => .error e
              | .ok t =>
                match pyGetD bestMove "promotion" Json.null with
                | .error e => .error e
                | .ok promo =>
                  .ok (Json.obj [("action", Json.obj
                    [("from", f), ("to", t), ("promotion", promo)]),
                    ("trashTalk", trashTalk)])
      else .error "No valid moves!")

/-- SimpleChessBot.on_game_start: resets the move counter to 0, then
prints a line that reads game_state.get("yourColor", "unknown"). -/
def SimpleChessBot.onGameStart (s : SimpleState) (gameState : Json) :
    SimpleState × Except String Unit :=
  let _ := s
  (⟨0⟩,
    match pyGetD gameState "yourColor" (Json.str "unknown") with
    | .error e => .error e
    | .ok _ => .ok ())

/-- The winning_trash_talk lines of StockfishBot
(examples/stockfish_bot.py). -/
def winningTrashTalk : List Json :=
  [Json.str "🦞 Calculated. Precise. Inevitable.",
   Json.str "My evaluation says +3. Your evaluation says \x27hope\x27.",
   Json.str "Stockfish sees all. Into the Pit! 🦞"]

/-- The losing_trash_talk lines of StockfishBot. -/
def losingTrashTalk : List Json :=
  [Json.str "Interesting position...",
   Json.str "You\x27ve made me think for once."]

/-- The loop of StockfishBot._get_stockfish_move over the engine's
output lines: the first line starting with "bestmove" and splitting into
at least two whitespace-separated parts yields the move parsed from the
second part (two squares and an optional promotion letter); otherwise
ValueError("Could not parse Stockfish output"). -/
def parseBestmove : List String → Except String Json
  | [] => .error "Could not parse Stockfish output"
  | line :: rest =>
    if line.startsWith "bestmove" then
      let parts := (line.splitOn " ").filter (fun p => p != "")
      if parts.length ≥ 2 then
        let moveStr := parts.getD 1 ""
        .ok (Json.obj
          [("from", Json.str (moveStr.take 2)),
           ("to", Json.str ((moveStr.drop 2).take 2)),
           ("promotion",
             if moveStr.length > 4 then Json.str ((moveStr.drop 4).take 1)
             else Json.null)])
      else parseBestmove rest
    else parseBestmove rest

/-- StockfishBot._get_stockfish_move from examples/stockfish_bot.py,
applied to the text the engine wrote on stdout; the process launch and
its 30-second communicate bound live outside this parse. -/
def getStockfishMove (stdout : String) : Except String Json :=
  parseBestmove (stdout.splitOn "\n")

/-- StockfishBot.make_move from examples/stockfish_bot.py: reads fen and
validMoves, raises ValueError("No valid moves!") on a falsy validMoves,
asks the engine for a move inside try/except, and on any engine failure
(timeout, crash, unparsable output — engineStdout carries the outcome of
Popen/communicate) falls back to a random valid move reduced to its
from/to squares; always attaches a winning trash-talk line. -/
def StockfishBot.makeMove (choice : List Json → Json)
    (engineStdout : Except String String) (gameState : Json) :
    Except String Json :=
  match pyGetD gameState "fen" (Json.str "") with
  | .error e => .error e
  | .ok _fen =>
    match pyGetD gameState "validMoves" (Json.arr []) with
    | .error e => .error e
    | .ok vm =>
      if truthy vm then
        match asList vm with
        | .error e => .error e
        | .ok validMoves =>
          let engineResult : Except String Json :=
            match engineStdout with
            | .error e => .error e
            | .ok out => getStockfishMove out
          match engineResult with
          | .ok bestMove =>
            .ok (Json.obj [("action", bestMove),
              ("trashTalk", choice winningTrashTalk)])
          | .error _ =>
            let fallback := choice validMoves
            match pySubscript fallback "from" with
            | .error e => .error e
            | .ok f =>
              match pySubscript fallback "to" with
              | .error e => .error e
              | .ok t =>
                .ok (Json.obj [("action", Json.obj [("from", f), ("to", t)]),
                  ("trashTalk", choice winningTrashTalk)])
      else .error "No valid moves!"

/-- HTTP methods the handler class defines (do_GET, do_POST in
moltpit_agent/server.py); other methods are answered by the framework
outside this code. -/
inductive Method where
  | GET : Method
  | POST : Method
deriving DecidableEq

/-- One wire request: method, path, and for POST the outcome of
json.loads on the body (error carries the raised message). -/
structure Request where
  method : Method
  path : String
  body : Except String Json

/-- One wire response: status code and JSON body. -/
structure Response where
  status : Nat
  body : Json

/-- AgentRequestHandler._send_error from moltpit_agent/server.py. -/
def errResponse (status : Nat) (message : String) : Response :=
  ⟨status, Json.obj [("error", Json.str message)]⟩

/-- The Agent abstraction of moltpit_agent/agent.py as the server sees
it: display identity, game type, and the three methods, each returning
the successor private state beside the call outcome. -/
structure AgentImpl (σ : Type) where
  name : String
  description : String
  gameType : σ → String
  makeMove : σ → Json → σ × Except String Json
  onGameStart : σ → Json → σ × Except String Unit
  onGameEnd : σ → Json → σ × Except String Unit

/-- AgentRequestHandler.do_GET from moltpit_agent/server.py: /health,
/info, else 404. -/
def do_GET (a : AgentImpl σ) (s : σ) (path : String) : Response :=
  if path = "/health" then ⟨200, Json.obj [("status", Json.str "ok")]⟩
  else if path = "/info" then
    ⟨200, Json.obj [("name", Json.str a.name),
      ("description", Json.str a.description),
      ("gameType", Json.str (a.gameType s))]⟩
  else errResponse 404 "Not found"

/-- AgentRequestHandler.do_POST from moltpit_agent/server.py: /move,
/game-start and /game-end each parse the body, read the expected key
with an empty-dict default, call the agent, and turn any raised error
into a 500 {"error": str(e)} response; other paths get 404. -/
def do_POST (a : AgentImpl σ) (s : σ) (path : String)
    (body : Except String Json) : σ × Response :=
  if path = "/move" then
    match body with
    | .error e => (s, errResponse 500 e)
    | .ok data =>
      match pyGetD data "gameState" (Json.obj []) with
      | .error e => (s, errResponse 500 e)
      | .ok gameState =>
        match a.makeMove s gameState with
        | (s2, .ok response) => (s2, ⟨200, response⟩)
        | (s2, .error e) => (s2, errResponse 500 e)
  else if path = "/game-start" then
    match body with
    | .error e => (s, errResponse 500 e)
    | .ok data =>
      match pyGetD data "gameState" (Json.obj []) with
      | .error e => (s, errResponse 500 e)
      | .ok gameState =>
        match a.onGameStart s gameState with
        | (s2, .ok _) => (s2, ⟨200, Json.obj [("status", Json.str "ok")]⟩)
        | (s2, .error e) => (s2, errResponse 500 e)
  else if path = "/game-end" then
    match body with
    | .error e => (s, errResponse 500 e)
    | .ok data =>
      match pyGetD data "result" (Json.obj []) with
      | .error e => (s, errResponse 500 e)
      | .ok result =>
        match a.onGameEnd s result with
        | (s2, .ok _) => (s2, ⟨200, Json.obj [("status", Json.str "ok")]⟩)
        | (s2, .error e) => (s2, errResponse 500 e)
  else (s, errResponse 404 "Not found")

/-- One request dispatched by AgentRequestHandler with the handler class
attribute bound to agent a whose private state is s. -/
def handle (a : AgentImpl σ) (s : σ) (r : Request) : σ × Response :=
  match r.method with
  | .GET => (s, do_GET a s r.path)
  | .POST => do_POST a s r.path r.body

/-- One abstraction call as dispatched by the server routes. -/
inductive AgentCall where
  | move : Json → AgentCall
  | start : Json → AgentCall
  | finish : Json → AgentCall

/-- State left by one abstraction call. -/
def AgentImpl.stepCall (a : AgentImpl σ) (s : σ) : AgentCall → σ
  | .move gs => (a.makeMove s gs).1
  | .start gs => (a.onGameStart s gs).1
  | .finish r => (a.onGameEnd s r).1

/-- State left by a sequence of abstraction calls. -/
def AgentImpl.runCalls (a : AgentImpl σ) (s : σ) : List AgentCall → σ
  | [] => s
  | c :: cs => a.runCalls (a.stepCall s c) cs

/-- The default ChessAgent of moltpit_agent/agent.py served over the
wire: stateless, game type "chess", hooks inherited from Agent as
no-ops. -/
def chessAgentImpl (name description : String) : AgentImpl Unit where
  name := name
  description := description
  gameType := fun _ => "chess"
  makeMove := fun s gs => (s, ChessAgent.makeMove gs)
  onGameStart := fun s _ => (s, .ok ())
  onGameEnd := fun s _ => (s, .ok ())

/-- The TriviaAgent of moltpit_agent/agent.py: make_move raises
NotImplementedError("Trivia agent not yet implemented"). -/
def triviaAgentImpl (name description : String) : AgentImpl Unit where
  name := name
  description := description
  gameType := fun _ => "trivia"
  makeMove := fun s _ => (s, .error "Trivia agent not yet implemented")
  onGameStart := fun s _ => (s, .ok ())
  onGameEnd := fun s _ => (s, .ok ())

/-- The DebateAgent of moltpit_agent/agent.py: make_move raises
NotImplementedError("Debate agent not yet implemented"). -/
def debateAgentImpl (name description : String) : AgentImpl Unit where
  name := name
  description := description
  gameType := fun _ => "debate"
  makeMove := fun s _ => (s, .error "Debate agent not yet implemented")
  onGameStart := fun s _ => (s, .ok ())
  onGameEnd := fun s _ => (s, .ok ())

/-- SimpleChessBot of examples/simple_chess_bot.py as served over the
wire, with the injected random choice; its constructor fixes the display
identity, the game type is inherited from ChessAgent, and on_game_end
only prints. -/
def simpleChessBotImpl (choice : List Json → Json) : AgentImpl SimpleState where
  name := "Simple Bot"
  description := "A basic chess bot for testing"
  gameType := fun _ => "chess"
  makeMove := SimpleChessBot.makeMove choice
  onGameStart := SimpleChessBot.onGameStart
  onGameEnd := fun s _ => (s, .ok ())

/-- StockfishBot of examples/stockfish_bot.py as served over the wire:
no private state is mutated by its methods; engineStdout carries the
outcome of the per-call engine process. -/
def stockfishBotImpl (choice : List Json → Json)
    (engineStdout : Except String String) : AgentImpl Unit where
  name := "Stockfish Bot"
  description := "Powered by the Stockfish chess engine"
  gameType := fun _ => "chess"
  makeMove := fun s gs => (s, StockfishBot.makeMove choice engineStdout gs)
  onGameStart := fun s _ => (s, .ok ())
  onGameEnd := fun s _ => (s, .ok ())

/-- Display identity of an agent as AgentServer and /info read it. -/
structure AgentRef where
  name : String
  description : String
  gameType : String
deriving DecidableEq

/-- AgentServer from moltpit_agent/server.py: its constructor stores the
injected agent and port as instance attributes. -/
structure AgentServer where
  agent : AgentRef
  port : Nat

/-- The process-wide class attribute AgentRequestHandler.agent of
moltpit_agent/server.py, shared by every handler in the process. -/
structure HandlerClassState where
  agent : Option AgentRef

/-- AgentServer.run from moltpit_agent/server.py before serving: it
assigns its own agent to the handler CLASS attribute, overwriting
whatever any other server instance had put there. -/
def AgentServer.run (server : AgentServer) (_h : HandlerClassState) :
    HandlerClassState :=
  ⟨some server.agent⟩

/-- The GET /info rendering read from the shared handler class
attribute, which is what every handler in the process dispatches on. -/
def handlerInfoResponse (h : HandlerClassState) : Option Json :=
  h.agent.map fun a => Json.obj [("name", Json.str a.name),
    ("description", Json.str a.description),
    ("gameType", Json.str a.gameType)]

/-- Pure reading of the capture test on a well-formed move. -/
def sanCapture (m : Json) : Bool :=
  match objLookup m "san" with
  | some (.str s) => s.toList.contains 'x'
  | _ => false

/-- Pure reading of the check test on a well-formed move. -/
def sanCheck (m : Json) : Bool :=
  match objLookup m "san" with
  | some (.str s) => s.toList.contains '+' || s.toList.contains '#'
  | _ => false

/-- Pure reading of the center test on a well-formed move. -/
def toCenter (m : Json) : Bool :=
  match objLookup m "to" with
  | some t => centerSquares.any (fun x => Json.beq x t)
  | none => false

/-- A move annotated as the heuristic selection expects: a dict whose
san entry, when present, is a string, and which has a destination
square. -/
def moveWF : Json → Bool
  | .obj kvs =>
    (match kvs.lookup "san" with
     | none => true
     | some (.str _) => true
     | some _ => false)
    && (kvs.lookup "to").isSome
  | _ => false

lemma isCapture_wf {m : Json} (h : moveWF m = true) :
    isCapture m = .ok (sanCapture m) := by
  cases m with
  | obj kvs =>
    simp only [isCapture, pyInSan, pyGetD, sanCapture, objLookup]
    rcases hl : kvs.lookup "san" with _ | v
    · simp [show (("" : String).toList.contains 'x') = false from by decide]
    · cases v <;> simp_all [moveWF]
  | _ => simp_all [moveWF]

lemma isCheck_wf {m : Json} (h : moveWF m = true) :
    isCheck m = .ok (sanCheck m) := by
  cases m with
  | obj kvs =>
    simp only [isCheck, pyInSan, pyGetD, sanCheck, objLookup]
    rcases hl : kvs.lookup "san" with _ | v
    · simp [show (("" : String).toList.contains '+') = false from by decide,
        show (("" : String).toList.contains '#') = false from by decide]
    · cases v with
      | str s =>
        simp only [Option.getD]
        cases hx : s.toList.contains '+' <;> simp [hx]
      | _ => simp_all [moveWF]
  | _ => simp_all [moveWF]

lemma isCenter_wf {m : Json} (h : moveWF m = true) :
    isCenter m = .ok (toCenter m) := by
  cases m with
  | obj kvs =>
    simp only [isCenter, pySubscript, toCenter, objLookup]
    rcases hl : kvs.lookup "to" with _ | v
    · simp_all [moveWF]
    · simp
  | _ => simp_all [moveWF]

lemma filterE_ok {f : Json → Except String Bool} {p : Json → Bool}
    {l : List Json} (h : ∀ m ∈ l, f m = .ok (p m)) :
    filterE f l = .ok (l.filter p) := by
  induction l with
  | nil => rfl
  | cons m ms ih =>
    have hm := h m (List.mem_cons_self m ms)
    have hms := ih (fun x hx => h x (List.mem_cons_of_mem m hx))
    simp only [filterE, hm, hms, List.filter]
    cases p m <;> simp

/-- C10: for every GameState whose validMoves list is non-empty, the
default ChessAgent make_move answers with an action built from the first
valid move, taking its from and to, with a promotion key always present
(null when the move has none), and the response carries no trashTalk
key. -/
theorem chess_default_first_move (gkvs mkvs : List (String × Json))
    (rest : List Json) (f t : Json)
    (hvm : List.lookup "validMoves" gkvs = some (Json.arr (Json.obj mkvs :: rest)))
    (hf : List.lookup "from" mkvs = some f)
    (ht : List.lookup "to" mkvs = some t) :
    ChessAgent.makeMove (Json.obj gkvs) =
      .ok (Json.obj [("action", Json.obj [("from", f), ("to", t),
        ("promotion", (List.lookup "promotion" mkvs).getD Json.null)])]) ∧
    objLookup (Json.obj [("action", Json.obj [("from", f), ("to", t),
      ("promotion", (List.lookup "promotion" mkvs).getD Json.null)])])
      "trashTalk" = none := by
  constructor
  · simp [ChessAgent.makeMove, pyGetD, pySubscript, pyIndex, hvm, hf, ht, truthy]
  · rfl

/-- Witness for C10 at a concrete one-move GameState. -/
theorem chess_default_first_move_witness :
    ChessAgent.makeMove (Json.obj [("validMoves", Json.arr
      [Json.obj [("from", Json.str "e2"), ("to", Json.str "e4")]])]) =
      .ok (Json.obj [("action", Json.obj [("from", Json.str "e2"),
        ("to", Json.str "e4"), ("promotion", Json.null)])]) :=
  (chess_default_first_move
    [("validMoves", Json.arr [Json.obj [("from", Json.str "e2"), ("to", Json.str "e4")]])]
    [("from", Json.str "e2"), ("to", Json.str "e4")] [] (Json.str "e2") (Json.str "e4")
    rfl rfl rfl).1

/-- C1: a POST /move whose GameState has an empty validMoves list makes
the default chess agent raise, and the server answers 500 with the
non-empty error string "No valid moves available" — never 200 with a
null action — while a subsequent GET /health still answers
200 with status ok. -/
theorem move_empty_valid_moves_error (name desc : String)
    (kvs gkvs : List (String × Json))
    (hgs : List.lookup "gameState" kvs = some (Json.obj gkvs))
    (hvm : List.lookup "validMoves" gkvs = some (Json.arr [])) :
    handle (chessAgentImpl name desc) () ⟨.POST, "/move", .ok (Json.obj kvs)⟩ =
      ((), errResponse 500 "No valid moves available") ∧
    (errResponse 500 "No valid moves available").status ≥ 300 ∧
    "No valid moves available" ≠ "" ∧
    objLookup (errResponse 500 "No valid moves available").body "error" =
      some (Json.str "No valid moves available") ∧
    (handle (chessAgentImpl name desc) () ⟨.GET, "/health", .ok Json.null⟩).2 =
      ⟨200, Json.obj [("status", Json.str "ok")]⟩ := by
  refine ⟨?_, by decide, by decide, rfl, rfl⟩
  simp [handle, do_POST, chessAgentImpl, pyGetD, hgs, ChessAgent.makeMove, hvm, truthy]

/-- Witness for C1 at the concrete body from the spec scenario. -/
theorem move_empty_valid_moves_error_witness :
    handle (chessAgentImpl "Agent" "") ()
        ⟨.POST, "/move", .ok (Json.obj [("gameState",
          Json.obj [("validMoves", Json.arr [])])])⟩ =
      ((), errResponse 500 "No valid moves available") :=
  (move_empty_valid_moves_error "Agent" ""
    [("gameState", Json.obj [("validMoves", Json.arr [])])]
    [("validMoves", Json.arr [])] rfl rfl).1

/-- C8: any request on the two defined methods whose method and path
match none of the five routes is answered 404 with body
error "Not found". -/
theorem unmatched_route_not_found {σ : Type} (a : AgentImpl σ) (s : σ)
    (method : Method) (path : String) (body : Except String Json)
    (hget : method = .GET → path ≠ "/health" ∧ path ≠ "/info")
    (hpost : method = .POST →
      path ≠ "/move" ∧ path ≠ "/game-start" ∧ path ≠ "/game-end") :
    (handle a s ⟨method, path, body⟩).2 = errResponse 404 "Not found" := by
  cases method with
  | GET =>
    obtain ⟨h1, h2⟩ := hget rfl
    simp [handle, do_GET, h1, h2]
  | POST =>
    obtain ⟨h1, h2, h3⟩ := hpost rfl
    simp [handle, do_POST, h1, h2, h3]

/-- Witness for C8 at GET /unknown. -/
theorem unmatched_route_not_found_witness :
    (handle (chessAgentImpl "Agent" "") ()
      ⟨.GET, "/unknown", .ok Json.null⟩).2 = errResponse 404 "Not found" :=
  unmatched_route_not_found (chessAgentImpl "Agent" "") () .GET "/unknown"
    (.ok Json.null) (fun _ => ⟨by decide, by decide⟩)
    (fun h => by cases h)

/-- C7: whenever the agent call behind POST /move, /game-start or
/game-end raises, the dispatch boundary answers 500 with body
error set to the failure's message, and the server still answers a
subsequent GET /health with 200 status ok. -/
theorem agent_error_boundary {σ : Type} (a : AgentImpl σ) (s s2 : σ)
    (kvs : List (String × Json)) (path m : String)
    (hcall :
      (path = "/move" ∧
        a.makeMove s ((List.lookup "gameState" kvs).getD (Json.obj [])) =
          (s2, .error m)) ∨
      (path = "/game-start" ∧
        a.onGameStart s ((List.lookup "gameState" kvs).getD (Json.obj [])) =
          (s2, .error m)) ∨
      (path = "/game-end" ∧
        a.onGameEnd s ((List.lookup "result" kvs).getD (Json.obj [])) =
          (s2, .error m))) :
    handle a s ⟨.POST, path, .ok (Json.obj kvs)⟩ = (s2, errResponse 500 m) ∧
    (handle a s2 ⟨.GET, "/health", .ok Json.null⟩).2 =
      ⟨200, Json.obj [("status", Json.str "ok")]⟩ := by
  refine ⟨?_, rfl⟩
  rcases hcall with ⟨hp, hc⟩ | ⟨hp, hc⟩ | ⟨hp, hc⟩ <;> subst hp <;>
    simp [handle, do_POST, pyGetD, hc]

/-- Witness for C7: the TriviaAgent raises on every move and the server
renders its message. -/
theorem agent_error_boundary_witness :
    handle (triviaAgentImpl "Trivia" "") () ⟨.POST, "/move", .ok (Json.obj [])⟩ =
      ((), errResponse 500 "Trivia agent not yet implemented") :=
  (agent_error_boundary (triviaAgentImpl "Trivia" "") () () [] "/move"
    "Trivia agent not yet implemented" (Or.inl ⟨rfl, rfl⟩)).1

/-- C2 counterexample: a valid-JSON body that lacks the required
gameState key is not surfaced as a request failure: POST /game-start
with body obj [] is answered 200 status ok, and the agent hook runs on
the substituted empty dict — SimpleChessBot's move counter, previously
5, is reset to 0, so Agent state is affected. -/
theorem game_start_missing_key_invokes_agent :
    handle (simpleChessBotImpl (fun l => l.headD Json.null)) ⟨5⟩
        ⟨.POST, "/game-start", .ok (Json.obj [])⟩ =
      (⟨0⟩, ⟨200, Json.obj [("status", Json.str "ok")]⟩) ∧
    (5 : Nat) ≠ 0 :=
  ⟨rfl, by decide⟩

/-- C2 as amended: a body that is not valid JSON is rejected at the
dispatch boundary with a 500 error response and the Agent is neither
invoked nor its state changed; but a valid-JSON object body lacking the
required key is not rejected — the handler substitutes an empty dict and
invokes the Agent on it, with the response determined by that call. -/
theorem malformed_body_boundary {σ : Type} (a : AgentImpl σ) (s : σ)
    (path e : String) (kvs : List (String × Json))
    (hpath : path = "/move" ∨ path = "/game-start" ∨ path = "/game-end")
    (hnogs : List.lookup "gameState" kvs = none)
    (hnores : List.lookup "result" kvs = none) :
    handle a s ⟨.POST, path, .error e⟩ = (s, errResponse 500 e) ∧
    handle a s ⟨.POST, "/move", .ok (Json.obj kvs)⟩ =
      (match a.makeMove s (Json.obj []) with
       | (s2, .ok r) => (s2, ⟨200, r⟩)
       | (s2, .error m) => (s2, errResponse 500 m)) ∧
    handle a s ⟨.POST, "/game-start", .ok (Json.obj kvs)⟩ =
      (match a.onGameStart s (Json.obj []) with
       | (s2, .ok _) => (s2, ⟨200, Json.obj [("status", Json.str "ok")]⟩)
       | (s2, .error m) => (s2, errResponse 500 m)) ∧
    handle a s ⟨.POST, "/game-end", .ok (Json.obj kvs)⟩ =
      (match a.onGameEnd s (Json.obj []) with
       | (s2, .ok _) => (s2, ⟨200, Json.obj [("status", Json.str "ok")]⟩)
       | (s2, .error m) => (s2, errResponse 500 m)) := by
  refine ⟨?_, ?_, ?_, ?_⟩
  · rcases hpath with hp | hp | hp <;> subst hp <;> simp [handle, do_POST]
  · simp [handle, do_POST, pyGetD, hnogs]
  · simp [handle, do_POST, pyGetD, hnogs]
  · simp [handle, do_POST, pyGetD, hnores]

/-- Witness for C2's amended statement: an unparsable body is rejected
before any agent call. -/
theorem malformed_body_boundary_witness :
    handle (chessAgentImpl "Agent" "") ()
        ⟨.POST, "/move", .error "Expecting value: line 1 column 1 (char 0)"⟩ =
      ((), errResponse 500 "Expecting value: line 1 column 1 (char 0)") :=
  (malformed_body_boundary (chessAgentImpl "Agent" "") () "/move"
    "Expecting value: line 1 column 1 (char 0)" [] (Or.inl rfl) rfl rfl).1

/-- C4 counterexample: after a first server running the Simple Bot,
running a second server with a distinct agent overwrites the shared
handler class attribute, so the dispatch every handler in the process
uses — the first server's included — now names the second agent. -/
theorem second_run_redirects_dispatch :
    (AgentServer.run
        ⟨⟨"Stockfish Bot", "Powered by the Stockfish chess engine", "chess"⟩, 8081⟩
        (AgentServer.run
          ⟨⟨"Simple Bot", "A basic chess bot for testing", "chess"⟩, 8080⟩
          ⟨none⟩)).agent =
      some ⟨"Stockfish Bot", "Powered by the Stockfish chess engine", "chess"⟩ ∧
    handlerInfoResponse (AgentServer.run
        ⟨⟨"Stockfish Bot", "Powered by the Stockfish chess engine", "chess"⟩, 8081⟩
        (AgentServer.run
          ⟨⟨"Simple Bot", "A basic chess bot for testing", "chess"⟩, 8080⟩
          ⟨none⟩)) =
      some (Json.obj [("name", Json.str "Stockfish Bot"),
        ("description", Json.str "Powered by the Stockfish chess engine"),
        ("gameType", Json.str "chess")]) ∧
    (⟨"Simple Bot", "A basic chess bot for testing", "chess"⟩ : AgentRef) ≠
      ⟨"Stockfish Bot", "Powered by the Stockfish chess engine", "chess"⟩ :=
  ⟨rfl, rfl, by decide⟩

/-- C4 as amended: each AgentServer keeps its injected agent as instance
state, but run publishes it into the process-wide handler class
attribute; after a second run the shared attribute — hence every
handler's dispatch, whichever server it belongs to — names the most
recently run agent. -/
theorem server_agent_last_run_wins (h : HandlerClassState)
    (a1 a2 : AgentRef) (p1 p2 : Nat) :
    (AgentServer.mk a1 p1).agent = a1 ∧
    (AgentServer.run ⟨a2, p2⟩ (AgentServer.run ⟨a1, p1⟩ h)).agent = some a2 ∧
    handlerInfoResponse (AgentServer.run ⟨a2, p2⟩ (AgentServer.run ⟨a1, p1⟩ h)) =
      some (Json.obj [("name", Json.str a2.name),
        ("description", Json.str a2.description),
        ("gameType", Json.str a2.gameType)]) :=
  ⟨rfl, rfl, rfl⟩

/-- C9: every agent class in the repository answers game_type with the
same fixed non-empty string on every call, whatever sequence of
make_move, on_game_start and on_game_end calls ran in between. -/
theorem game_type_stable (name desc : String) (calls : List AgentCall)
    (u : Unit) (s : SimpleState) (choice : List Json → Json)
    (engineStdout : Except String String) :
    ((chessAgentImpl name desc).gameType
        ((chessAgentImpl name desc).runCalls u calls) = "chess" ∧
      "chess" ≠ "") ∧
    ((triviaAgentImpl name desc).gameType
        ((triviaAgentImpl name desc).runCalls u calls) = "trivia" ∧
      "trivia" ≠ "") ∧
    ((debateAgentImpl name desc).gameType
        ((debateAgentImpl name desc).runCalls u calls) = "debate" ∧
      "debate" ≠ "") ∧
    (simpleChessBotImpl choice).gameType
        ((simpleChessBotImpl choice).runCalls s calls) = "chess" ∧
    (stockfishBotImpl choice engineStdout).gameType
        ((stockfishBotImpl choice engineStdout).runCalls u calls) = "chess" :=
  ⟨⟨rfl, by decide⟩, ⟨rfl, by decide⟩, ⟨rfl, by decide⟩, rfl, rfl⟩

/-- C3 failing run: served over the wire, SimpleChessBot with a random
source that picks a stay-quiet None line answers POST /move with a body
whose trashTalk key is present and null, instead of omitting the key;
the chosen line, trashTalkLines index 6, is indeed one of the bot's own
lines and is None. -/
theorem simple_bot_null_trash_talk_on_wire :
    handle (simpleChessBotImpl
        (fun l => if l.length = 8 then l.getD 6 Json.null else l.headD Json.null))
        ⟨0⟩
        ⟨.POST, "/move", .ok (Json.obj [("gameState", Json.obj [("validMoves",
          Json.arr [Json.obj [("from", Json.str "e2"), ("to", Json.str "e4"),
            ("san", Json.str "e4")]])])])⟩ =
      (⟨1⟩, ⟨200, Json.obj
        [("action", Json.obj [("from", Json.str "e2"), ("to", Json.str "e4"),
          ("promotion", Json.null)]),
         ("trashTalk", Json.null)]⟩) ∧
    trashTalkLines.getD 6 Json.null = Json.null ∧
    trashTalkLines.length = 8 :=
  ⟨rfl, rfl, rfl⟩

lemma isEmpty_false_of_ne_nil {l : List Json} (h : l ≠ []) :
    l.isEmpty = false := by
  cases l with
  | nil => exact absurd rfl h
  | cons a as => rfl

/-- C5: on a non-empty list of SAN-annotated legal moves the heuristic
selection answers a move chosen by descending priority — captures, else
checks or mates, else central destinations while the agent's own move
count is below 10, else any legal move — and on the spec scenario with
moves e4 and dxe5 it deterministically selects the capture dxe5. -/
theorem select_move_priority (choice : List Json → Json)
    (hchoice : ∀ l : List Json, l ≠ [] → choice l ∈ l) :
    (∀ (moveCount : Nat) (moves : List Json) (gameState : Json),
      moves ≠ [] → (∀ m ∈ moves, moveWF m = true) →
      ∃ r, SimpleChessBot.selectMove choice moveCount moves gameState = .ok r ∧
        (moves.filter sanCapture ≠ [] → r ∈ moves.filter sanCapture) ∧
        (moves.filter sanCapture = [] → moves.filter sanCheck ≠ [] →
          r ∈ moves.filter sanCheck) ∧
        (moves.filter sanCapture = [] → moves.filter sanCheck = [] →
          moveCount < 10 → moves.filter toCenter ≠ [] →
          r ∈ moves.filter toCenter) ∧
        r ∈ moves) ∧
    SimpleChessBot.selectMove choice 1
      [Json.obj [("from", Json.str "e2"), ("to", Json.str "e4"),
        ("san", Json.str "e4")],
       Json.obj [("from", Json.str "d2"), ("to", Json.str "d4"),
        ("san", Json.str "dxe5")]] (Json.obj []) =
      .ok (Json.obj [("from", Json.str "d2"), ("to", Json.str "d4"),
        ("san", Json.str "dxe5")]) := by
  constructor
  · intro mc moves g hne hwf
    have hc1 : filterE isCapture moves = .ok (moves.filter sanCapture) :=
      filterE_ok (fun m hm => isCapture_wf (hwf m hm))
    have hc2 : filterE isCheck moves = .ok (moves.filter sanCheck) :=
      filterE_ok (fun m hm => isCheck_wf (hwf m hm))
    have hc3 : filterE isCenter moves = .ok (moves.filter toCenter) :=
      filterE_ok (fun m hm => isCenter_wf (hwf m hm))
    by_cases hcap : moves.filter sanCapture = []
    · by_cases hchk : moves.filter sanCheck = []
      · by_cases hmc : mc < 10
        · by_cases hctr : moves.filter toCenter = []
          · refine ⟨choice moves, ?_,
              fun h => absurd hcap h,
              fun _ h => absurd hchk h,
              fun _ _ _ h => absurd hctr h,
              hchoice moves hne⟩
            simp [SimpleChessBot.selectMove, hc1, hc2, hc3, hcap, hchk, hctr, hmc]
          · have hmem := hchoice _ hctr
            refine ⟨choice (moves.filter toCenter), ?_,
              fun h => absurd hcap h,
              fun _ h => absurd hchk h,
              fun _ _ _ _ => hmem,
              List.mem_of_mem_filter hmem⟩
            simp [SimpleChessBot.selectMove, hc1, hc2, hc3, hcap, hchk, hmc,
              isEmpty_false_of_ne_nil hctr]
        · refine ⟨choice moves, ?_,
            fun h => absurd hcap h,
            fun _ h => absurd hchk h,
            fun _ _ hmc2 _ => absurd hmc2 hmc,
            hchoice moves hne⟩
          simp [SimpleChessBot.selectMove, hc1, hc2, hcap, hchk, hmc]
      · have hmem := hchoice _ hchk
        refine ⟨choice (moves.filter sanCheck), ?_,
          fun h => absurd hcap h,
          fun _ _ => hmem,
          fun _ h => absurd h hchk,
          List.mem_of_mem_filter hmem⟩
        simp [SimpleChessBot.selectMove, hc1, hc2, hcap,
          isEmpty_false_of_ne_nil hchk]
    · have hmem := hchoice _ hcap
      refine ⟨choice (moves.filter sanCapture), ?_,
        fun _ => hmem,
        fun h => absurd h hcap,
        fun h => absurd h hcap,
        List.mem_of_mem_filter hmem⟩
      simp [SimpleChessBot.selectMove, hc1, isEmpty_false_of_ne_nil hcap]
  · have h1 : SimpleChessBot.selectMove choice 1
        [Json.obj [("from", Json.str "e2"), ("to", Json.str "e4"),
          ("san", Json.str "e4")],
         Json.obj [("from", Json.str "d2"), ("to", Json.str "d4"),
          ("san", Json.str "dxe5")]] (Json.obj []) =
        .ok (choice [Json.obj [("from", Json.str "d2"), ("to", Json.str "d4"),
          ("san", Json.str "dxe5")]]) := rfl
    have h2 := hchoice [Json.obj [("from", Json.str "d2"),
      ("to", Json.str "d4"), ("san", Json.str "dxe5")]] (by simp)
    rw [List.mem_singleton] at h2
    rw [h1, h2]

/-- Witness for C5 with a concrete deterministic random source. -/
theorem select_move_priority_witness :
    SimpleChessBot.selectMove (fun l => l.headD Json.null) 1
      [Json.obj [("from", Json.str "e2"), ("to", Json.str "e4"),
        ("san", Json.str "e4")],
       Json.obj [("from", Json.str "d2"), ("to", Json.str "d4"),
        ("san", Json.str "dxe5")]] (Json.obj []) =
      .ok (Json.obj [("from", Json.str "d2"), ("to", Json.str "d4"),
        ("san", Json.str "dxe5")]) :=
  (select_move_priority (fun l => l.headD Json.null)
    (fun l hl => by
      cases l with
      | nil => exact absurd rfl hl
      | cons a as => exact List.mem_cons_self a as)).2

/-- C6: with a non-empty validMoves list, StockfishBot.make_move answers
an ok response whose action carries the from/to of a randomly chosen
valid move whenever the engine call fails — the process failed outright
or its output had no parsable bestmove line — so no collaborator failure
escapes make_move. -/
theorem stockfish_fallback_action (choice : List Json → Json)
    (hchoice : ∀ l : List Json, l ≠ [] → choice l ∈ l)
    (engineStdout : Except String String)
    (kvs mkvs : List (String × Json)) (moves : List Json) (f t : Json)
    (hvm : List.lookup "validMoves" kvs = some (Json.arr moves))
    (hne : moves ≠ [])
    (hfail : (∃ e, engineStdout = .error e) ∨
      (∃ out, engineStdout = .ok out ∧ ∃ e, getStockfishMove out = .error e))
    (hpick : choice moves = Json.obj mkvs)
    (hf : List.lookup "from" mkvs = some f)
    (ht : List.lookup "to" mkvs = some t) :
    StockfishBot.makeMove choice engineStdout (Json.obj kvs) =
      .ok (Json.obj [("action", Json.obj [("from", f), ("to", t)]),
        ("trashTalk", choice winningTrashTalk)]) ∧
    Json.obj mkvs ∈ moves := by
  refine ⟨?_, hpick ▸ hchoice moves hne⟩
  have hemp := isEmpty_false_of_ne_nil hne
  rcases hfail with ⟨e, rfl⟩ | ⟨out, rfl, e, hparse⟩
  · simp [StockfishBot.makeMove, pyGetD, hvm, truthy, hemp, asList,
      pySubscript, hpick, hf, ht]
  · simp [StockfishBot.makeMove, pyGetD, hvm, truthy, hemp, asList, hparse,
      pySubscript, hpick, hf, ht]

/-- Witness for C6: the engine times out and the bot still answers with
the only valid move. -/
theorem stockfish_fallback_action_witness :
    StockfishBot.makeMove (fun l => l.headD Json.null) (.error "timed out")
        (Json.obj [("validMoves", Json.arr
          [Json.obj [("from", Json.str "e2"), ("to", Json.str "e4")]])]) =
      .ok (Json.obj [("action", Json.obj [("from", Json.str "e2"),
        ("to", Json.str "e4")]),
        ("trashTalk", Json.str "🦞 Calculated. Precise. Inevitable.")]) :=
  (stockfish_fallback_action (fun l => l.headD Json.null)
    (fun l hl => by
      cases l with
      | nil => exact absurd rfl hl
      | cons a as => exact List.mem_cons_self a as)
    (.error "timed out")
    [("validMoves", Json.arr
      [Json.obj [("from", Json.str "e2"), ("to", Json.str "e4")]])]
    [("from", Json.str "e2"), ("to", Json.str "e4")]
    [Json.obj [("from", Json.str "e2"), ("to", Json.str "e4")]]
    (Json.str "e2") (Json.str "e4")
    rfl (List.cons_ne_nil _ _) (Or.inl ⟨"timed out", rfl⟩) rfl rfl rfl).1
